import Mathlib

/-!
# Verification of the CDS-data pipeline against its specification

Shallow embedding of the relevant parts of the repository
(`cds_helpers/aliases.py`, `cds_helpers/net_resilient.py`,
`cds_helpers/sbsdr_fetch.py`, `cds_helpers/parsing.py`,
`cds_helpers/clean_aggregate.py`, `cds_one_stop.py`) and proofs settling
the frozen claims C1..C10.

Modelling conventions:
* Python floats are modelled as exact rationals (`ℚ`).
* Python `None` / pandas `NaN` on parsed numeric cells is `Option ℚ`;
  where the pandas distinction between a `None` object cell and a float
  `NaN` cell matters (claim C8), a dedicated cell type `PCell` is used.
* Python exceptions are `Except String`.
* `datetime.date` is modelled by a proleptic-Gregorian triple `PyDate`
  together with the standard civil-date-to-day-number conversion, so that
  date subtraction (`(maturity - effective).days`) is exact.
-/

namespace CDSData

/-! ## Dates (`datetime.date` arithmetic) -/

/-- A proleptic Gregorian calendar date, mirroring Python `datetime.date`. -/
structure PyDate where
  year : Int
  month : Int
  day : Int
deriving DecidableEq, Repr

/-- Day number of a civil date (days since 1970-01-01, proleptic Gregorian),
the quantity underlying Python `date` subtraction.  Standard civil-from-days
algorithm, using floor division throughout. -/
def daysFromCivil (dt : PyDate) : Int :=
  let y : Int := if dt.month ≤ 2 then dt.year - 1 else dt.year
  let era : Int := Int.fdiv y 400
  let yoe : Int := y - era * 400
  let mp : Int := if dt.month > 2 then dt.month - 3 else dt.month + 9
  let doy : Int := Int.fdiv (153 * mp + 2) 5 + dt.day - 1
  let doe : Int := yoe * 365 + Int.fdiv yoe 4 - Int.fdiv yoe 100 + doy
  era * 146097 + doe - 719468

/-- `(b - a).days` for Python dates: day-number difference. -/
def dateDiffDays (b a : PyDate) : Int :=
  daysFromCivil b - daysFromCivil a

/-! ## `cds_helpers/aliases.py` -/

/-- Embedding of `aliases.tenor_close_enough`.  The Python code returns
`True` when either date is missing (`if not (effective_date and
maturity_date): return True`; the `isinstance` guard is always satisfied in
the typed model), returns `False` when `(maturity - effective).days <= 0`,
and otherwise compares `|days/365.25 - request_years|` with `tol_years`. -/
def tenor_close_enough (request_years : ℚ) (effective_date maturity_date : Option PyDate)
    (tol_years : ℚ) : Bool :=
  match effective_date, maturity_date with
  | some e, some m =>
      let days : Int := dateDiffDays m e
      if days ≤ 0 then false
      else decide (|(days : ℚ) / (365.25 : ℚ) - request_years| ≤ tol_years)
  | _, _ => true

/-! ## `cds_helpers/net_resilient.py` -/

/-- Outcome of one `requests.get(url, timeout=timeout)` call inside
`get_url_resilient`: either a delivered HTTP response with a status code, or
an exception raised by the transport (DNS failure, connect error, timeout). -/
inductive AttemptOutcome
  | ok (status : Nat)
  | connErr
deriving DecidableEq, Repr

/-- Whether the attempt lands in the `except` branch of the direct stage of
`get_url_resilient`: a transport exception, or `r.raise_for_status()`
raising, which `requests` does exactly for status codes `≥ 400`
(so HTTP 404 is a failure retried like any other). -/
def attemptFails : AttemptOutcome → Bool
  | .ok st => decide (400 ≤ st)
  | .connErr => true

/-- The direct stage of `get_url_resilient` (the `for attempt in
range(tries)` loop over plain `requests.get`): given an oracle assigning to
each attempt index its outcome, returns
`(number of GET attempts performed, whether one of them succeeded)`.
On success the function returns immediately; on failure it sleeps and
retries until `tries` attempts are exhausted, after which control falls
through to the DNS-over-HTTPS stage. -/
def directStage (oracle : Nat → AttemptOutcome) (start fuel : Nat) : Nat × Bool :=
  match fuel with
  | 0 => (0, false)
  | fuel' + 1 =>
      if attemptFails (oracle start) then
        let rest := directStage oracle (start + 1) fuel'
        (rest.1 + 1, rest.2)
      else (1, true)

/-! ## `cds_helpers/sbsdr_fetch.py` -/

/-- Body of a delivered HTTP response, as `fetch_sbsdr_day` distinguishes
them: blank text (`not resp.text.strip()`), text on which `pd.read_csv`
raises, or a parsed table of rows (the row type `α` is abstract: the
claims do not depend on the frame contents). -/
inductive CsvBody (α : Type)
  | blank : CsvBody α
  | malformed : CsvBody α
  | table (rows : List α) : CsvBody α
deriving DecidableEq, Repr

/-- Outcome of the single `requests.get(url, timeout=30)` call made by
`fetch_sbsdr_day`: a delivered response, or an exception raised by the
transport layer (which the function does not catch). -/
inductive HttpOutcome (α : Type)
  | response (status : Nat) (body : CsvBody α)
  | raised
deriving DecidableEq, Repr

/-- Embedding of `sbsdr_fetch.fetch_sbsdr_day`.  The function performs
exactly one GET (its argument).  A non-200 status (404 and 500 alike) or a
blank body yields an empty frame (`[]`); a `pd.read_csv` failure yields an
empty frame; a transport exception propagates (`Except.error`), since the
`requests.get` call sits outside any `try`.  The column-name normalization
applied to a parsed frame is irrelevant to the claims and is not modelled. -/
def fetch_sbsdr_day {α : Type} (outcome : HttpOutcome α) : Except String (List α) :=
  match outcome with
  | .raised => .error "requests transport exception"
  | .response status body =>
      if status ≠ 200 then .ok []
      else
        match body with
        | .blank => .ok []
        | .malformed => .ok []
        | .table rows => .ok rows

/-- Value of one cell of a pandas numeric column as `filter_cds_rows` sees
it when iterating rows: `pnone` is a Python `None` object cell (column
absent, or an object-dtype column whose parses all failed), `pnan` is a
float `NaN` cell (a failed parse inside a float64 column), `pnum q` is a
parsed number. -/
inductive PCell
  | pnone
  | pnan
  | pnum (q : ℚ)
deriving DecidableEq, Repr

/-- pandas materialization of one per-cell parse result
(`Series.apply(to_num)` / scalar-`None` column assignment): if the whole
column parsed to `None` (the `allNone` flag), cells stay `None` objects;
otherwise pandas infers a float64 dtype and failed parses become `NaN`. -/
def matCell (allNone : Bool) (o : Option ℚ) : PCell :=
  if allNone then PCell.pnone
  else
    match o with
    | none => PCell.pnan
    | some q => PCell.pnum q

/-- Per-cell coupon conversion in `filter_cds_rows`:
`to_num(x) * 10000.0 if (to_num(x) and to_num(x) < 1) else to_num(x)`.
Python truthiness makes `to_num(x)` guard out both `None` and `0.0`, so the
scaling applies exactly when the parsed value is nonzero and `< 1`
(negative values included). -/
def couponCellConv (o : Option ℚ) : Option ℚ :=
  match o with
  | none => none
  | some q => if q ≠ 0 ∧ q < 1 then some (q * 10000) else some q

/-- Embedding of the `choose_quote` closure of `filter_cds_rows`: first of
`spread_bps`, `price`, `coupon_bps` whose cell `is not None` — a `NaN` cell
passes this test — else `(None, None)`. -/
def choose_quote (s p c : PCell) : PCell × Option String :=
  if s ≠ PCell.pnone then (s, some "spread_bps")
  else if p ≠ PCell.pnone then (p, some "price")
  else if c ≠ PCell.pnone then (c, some "running_coupon_bps")
  else (PCell.pnone, none)

/-- One row of `work` after the `looks_like_cds` filter in
`filter_cds_rows`, carrying the `to_num` parse result of each numeric cell
(`none` = cell missing/unparseable, or the whole column absent from the
frame). -/
structure SurvRow where
  spread : Option ℚ
  price : Option ℚ
  coupon : Option ℚ
  notional : Option ℚ
deriving DecidableEq, Repr

/-- One row of the frame returned by `filter_cds_rows` (the numeric columns
and the chosen quote; entity/date/side columns are irrelevant to the
claims). -/
structure QuotedRow where
  notional : PCell
  spread_bps : PCell
  price : PCell
  coupon_bps : PCell
  quote_value_bps : PCell
  quote_type : Option String
deriving DecidableEq, Repr

/-- Embedding of the quote-extraction tail of `filter_cds_rows`
(the code after `looks_like_cds` filtering): each numeric column is
materialized pandas-style (see `matCell`), the coupon column is converted
per `couponCellConv`, and `choose_quote` picks the quote per row.  Every
surviving row yields exactly one output row; the function never drops a
row, even when no quote is available. -/
def quoteStage (rows : List SurvRow) : List QuotedRow :=
  let sAll := rows.all (fun r => r.spread.isNone)
  let pAll := rows.all (fun r => r.price.isNone)
  let cAll := rows.all (fun r => (couponCellConv r.coupon).isNone)
  let nAll := rows.all (fun r => r.notional.isNone)
  rows.map (fun r =>
    let s := matCell sAll r.spread
    let p := matCell pAll r.price
    let c := matCell cAll (couponCellConv r.coupon)
    let n := matCell nAll r.notional
    let q := choose_quote s p c
    { notional := n, spread_bps := s, price := p, coupon_bps := c,
      quote_value_bps := q.1, quote_type := q.2 })

/-! ## `cds_helpers/parsing.py` -/

/-- The two token tests `normalize_price_to_bps` runs on a row's price-unit
cell: `is_bps` = the unit string contains `bp`/`bps`/`basis`, `is_pct` = it
contains `%`/`percent`/`pct`. -/
structure PriceUnit where
  is_bps : Bool
  is_pct : Bool
deriving DecidableEq, Repr

/-- Embedding of `parsing.normalize_price_to_bps` at the level of one row:
`p` is the `to_numeric(..., errors="coerce")` result for the price cell
(`none` = NaN), `u` the unit flags (`none` = no unit column resolved).
The `np.where(is_bps, p, p)` in the source is the identity; percent-typed
cells are set to NaN; everything else is returned unscaled. -/
def normalize_price_to_bps (p : Option ℚ) (u : Option PriceUnit) : Option ℚ :=
  match u with
  | none => p
  | some flags => if flags.is_pct then none else p

/-! ## `cds_helpers/clean_aggregate.py` -/

/-- The `Agg` literal type of `clean_aggregate.py`:
`Literal["weighted_mean", "median", "mean"]`. -/
inductive Agg
  | weighted_mean
  | median
  | mean
deriving DecidableEq, Repr

/-- A row of `_filter_usa_usd_5y`'s working frame after the
entity/currency/tenor string filters, at the point where the numeric
coercion of lines 117-124 runs: `date` is the `pd.to_datetime(...).dt.date`
result (`none` = unparseable, dropped by the final
`dropna(subset=["date"])`), `notional` and `spread` are the
`pd.to_numeric(..., errors="coerce")` results (`none` = NaN). -/
structure PreRow where
  date : Option Int
  notional : Option ℚ
  spread : Option ℚ
deriving DecidableEq, Repr

/-- A row of the frame `_filter_usa_usd_5y` returns: `date` present,
`notional` NaN-filled with `0.0`, `spread_bps` still possibly NA.
The constant `entity`/`currency`/`tenor_years` columns are omitted. -/
structure FilteredRow where
  date : Int
  notional : ℚ
  spread_bps : Option ℚ
deriving DecidableEq, Repr

/-- Embedding of the tail of `_filter_usa_usd_5y` (lines 117-143): when
both a notional and a spread column were resolved, rows where both coerced
values are NaN are dropped; the output frame fills notional NaN with `0.0`
(or a constant `0.0` column when no notional column was resolved), keeps
spread as-is (or an all-NA column when no spread column was resolved), and
drops rows whose date failed to parse. -/
def filterNumericTail (hasNotional hasSpread : Bool) (rows : List PreRow) :
    List FilteredRow :=
  let dropped :=
    if hasNotional && hasSpread then
      rows.filter (fun r => r.notional.isSome || r.spread.isSome)
    else rows
  (dropped.filterMap (fun r =>
    match r.date with
    | none => none
    | some d =>
        some { date := d,
               notional := if hasNotional then r.notional.getD 0 else 0,
               spread_bps := if hasSpread then r.spread else none }))

/-- Insertion of a rational into a sorted list (ascending), used to model
the sort underlying `pandas.Series.median`. -/
def insertQ (x : ℚ) : List ℚ → List ℚ
  | [] => [x]
  | y :: ys => if x ≤ y then x :: y :: ys else y :: insertQ x ys

/-- Insertion sort on rationals. -/
def sortQ : List ℚ → List ℚ
  | [] => []
  | x :: xs => insertQ x (sortQ xs)

/-- `pandas.Series.median` on the non-NA values: middle order statistic for
odd length, mean of the two middle order statistics for even length. -/
def medianQ (l : List ℚ) : ℚ :=
  let s := sortQ l
  let n := s.length
  if n % 2 = 1 then s.getD (n / 2) 0
  else (s.getD (n / 2 - 1) 0 + s.getD (n / 2) 0) / 2

/-- A row of the DataFrame `build_series` is documented to return:
`date, entity, tenor_years, currency, trades, notional, price_bps_<agg>`
(`price = none` models Python `None`). -/
structure OutRow where
  date : Int
  entity : String
  tenor_years : Nat
  currency : String
  trades : Nat
  notional : ℚ
  price : Option ℚ
deriving DecidableEq, Repr

/-- Embedding of the per-day aggregation of `build_series` (lines 168-191):
given the day's filtered frame `ser`, an empty frame appends no output row
(`none`); otherwise one row is appended whose price is
* for `weighted_mean`: `Σ(spread.fillna(0)·notional) / max(Σnotional, 1e-12)`
  when some spread is non-NA and `Σnotional > 0`, else `None`;
* for `median`/`mean`: the median/mean of the non-NA spreads when one
  exists, else `None`.
The row's date is `ser["date"].iloc[0]`, the date carried by the first
filtered row. -/
def aggregateDay (agg : Agg) (ser : List FilteredRow) : Option OutRow :=
  match ser with
  | [] => none
  | first :: _ =>
      let trades := ser.length
      let notional := (ser.map (fun r => r.notional)).sum
      let anySpread := ser.any (fun r => r.spread_bps.isSome)
      let spreads := ser.filterMap (fun r => r.spread_bps)
      let price : Option ℚ :=
        match agg with
        | .weighted_mean =>
            if anySpread = true ∧ 0 < notional then
              some ((ser.map (fun r => (r.spread_bps.getD 0) * r.notional)).sum /
                max notional ((1 : ℚ) / 1000000000000))
            else none
        | .median => if anySpread = true then some (medianQ spreads) else none
        | .mean =>
            if anySpread = true then some (spreads.sum / (spreads.length : ℚ))
            else none
      some { date := first.date, entity := "United States of America",
             tenor_years := 5, currency := "USD", trades := trades,
             notional := notional, price := price }

/-- Python truthiness of a pandas DataFrame.  `pandas.DataFrame.__bool__`
raises `ValueError("The truth value of a DataFrame is ambiguous. ...")`
unconditionally, for empty and non-empty frames alike, so this evaluation
never produces a boolean: the result type carries `Empty`. -/
def dataFrameTruth {α : Type} (df : List α) : Except String Empty :=
  .error "The truth value of a DataFrame is ambiguous"

/-- Embedding of `clean_aggregate.build_series`.  `fetch` models
`fetch_sbsdr_day`, which returns a pandas DataFrame (a `List α`).  After
the `end_date < start_date` guard, the first loop iteration computes
`txt = fetch_sbsdr_day(ds)` and evaluates `if txt:` — Python truthiness of
a DataFrame — which raises unconditionally (`dataFrameTruth`), so control
never reaches the rest of the loop body (`_read_csv`,
`_filter_usa_usd_5y`, the aggregation, the final sort and
de-duplication); those stages are modelled separately above
(`filterNumericTail`, `aggregateDay`). -/
def build_series (α : Type) (fetch : Int → List α) (start_date end_date : Int)
    (agg : Agg) : Except String (List OutRow) :=
  if end_date < start_date then .error "end_date before start_date"
  else
    match dataFrameTruth (fetch start_date) with
    | .error msg => .error msg
    | .ok b => b.elim

/-! ## `cds_one_stop.py` module-level structure (claim C3) -/

/-- The names bound at module level in `cds_helpers/clean_aggregate.py`
(imports and definitions), in source order. -/
def clean_aggregate_module_names : List String :=
  ["annotations", "io", "logging", "re", "dataclass", "Literal", "Optional",
   "Tuple", "pd", "fetch_sbsdr_day", "LOG", "Agg", "ENTITY_PAT", "TENOR_PAT",
   "COLMAP", "_coerce_cols", "_first_col", "_read_csv", "_filter_usa_usd_5y",
   "build_series"]

/-- The names `cds_one_stop.py` line 7 imports from
`cds_helpers.clean_aggregate`. -/
def cds_one_stop_import_names : List String :=
  ["build_series", "probe_days"]

/-- The parameter names of `build_series(start_date, end_date, agg)`;
the signature has no `**kwargs`. -/
def build_series_param_names : List String :=
  ["start_date", "end_date", "agg"]

/-- The keyword-argument names of the `build_series(...)` call in the
`fetch` branch of `cds_one_stop.main` (lines 71-78). -/
def fetch_branch_call_kwargs : List String :=
  ["entity", "tenor_years", "currency", "start", "end", "agg"]

/-- A Python `from M import a, b` succeeds only when every imported name is
bound in module `M`; otherwise it raises `ImportError`. -/
def importsResolve (imported defined : List String) : Bool :=
  imported.all (fun n => defined.contains n)

/-- A Python call binding keyword arguments succeeds only when every
keyword matches a parameter name (absent `**kwargs`); otherwise it raises
`TypeError: got an unexpected keyword argument`. -/
def kwargsAccepted (kwargs params : List String) : Bool :=
  kwargs.all (fun n => params.contains n)

/-! ## Sanity anchors for the date model -/

example : daysFromCivil ⟨1970, 1, 1⟩ = 0 := by decide
example : daysFromCivil ⟨2020, 1, 1⟩ = 18262 := by decide
example : dateDiffDays ⟨2025, 1, 2⟩ ⟨2020, 1, 1⟩ = 1828 := by decide
example : dateDiffDays ⟨2023, 1, 1⟩ ⟨2020, 1, 1⟩ = 1096 := by decide

/-! ## Claims -/

/-- Claim C3 (confirmed): the CLI entry point can never produce a series.
Importing `cds_one_stop` executes
`from cds_helpers.clean_aggregate import build_series, probe_days`, but
`clean_aggregate` binds no name `probe_days`, so the import raises
`ImportError`; independently, the `fetch` branch of `main` calls
`build_series(entity=..., tenor_years=..., currency=..., start=..., end=...,
agg=...)` while `build_series(start_date, end_date, agg)` accepts none of
the first five keywords, so the call would raise `TypeError`. -/
theorem claim_C3_cli_never_builds :
    importsResolve cds_one_stop_import_names clean_aggregate_module_names = false ∧
    clean_aggregate_module_names.contains "probe_days" = false ∧
    kwargsAccepted fetch_branch_call_kwargs build_series_param_names = false ∧
    build_series_param_names.contains "entity" = false := by
  refine ⟨?_, ?_, ?_, ?_⟩ <;> rfl

/-- Claim C2, counterexample: the day fetch can raise.  When the single
`requests.get` call inside `fetch_sbsdr_day` raises a transport exception
(DNS failure, connect error, timeout), the exception propagates out of the
function instead of being converted into an empty/absent result, refuting
"the day-fetch operation never raises an exception". -/
theorem claim_C2_counterexample :
    fetch_sbsdr_day (HttpOutcome.raised : HttpOutcome Unit) =
      Except.error "requests transport exception" := rfl

/-- Claim C2, amended: for every *delivered* HTTP response,
`fetch_sbsdr_day` returns normally — an empty frame for any non-200 status,
a blank body, or an unparseable body — but a transport-level exception from
`requests.get` propagates (and `build_series` does not catch it), so a
single bad day does abort a multi-day run. -/
theorem claim_C2_fetch_day_behavior :
    (∀ (α : Type) (st : Nat) (b : CsvBody α),
        ∃ rows, fetch_sbsdr_day (HttpOutcome.response st b) = Except.ok rows) ∧
    (∀ (α : Type) (st : Nat) (b : CsvBody α), st ≠ 200 →
        fetch_sbsdr_day (HttpOutcome.response st b) = Except.ok []) ∧
    (∀ α : Type,
        ∃ msg, fetch_sbsdr_day (HttpOutcome.raised : HttpOutcome α) = Except.error msg) := by
  refine ⟨?_, ?_, ?_⟩
  · intro α st b
    by_cases h : st = 200
    · subst h
      cases b with
      | blank => exact ⟨[], rfl⟩
      | malformed => exact ⟨[], rfl⟩
      | table rows => exact ⟨rows, by simp [fetch_sbsdr_day]⟩
    · exact ⟨[], by simp [fetch_sbsdr_day, h]⟩
  · intro α st b h
    simp [fetch_sbsdr_day, h]
  · intro α
    exact ⟨"requests transport exception", rfl⟩

/-- Claim C2, witness for the amended theorem at a concrete input: an
HTTP 404 response yields the empty frame, without an exception. -/
theorem claim_C2_witness :
    (404 : Nat) ≠ 200 ∧
    fetch_sbsdr_day (HttpOutcome.response 404 CsvBody.blank : HttpOutcome Unit) =
      Except.ok [] :=
  ⟨by norm_num, claim_C2_fetch_day_behavior.2.1 Unit 404 CsvBody.blank (by norm_num)⟩

/-- Claim C4, counterexample: a 404 does not short-circuit the retry
ladder, and a 500 is not retried.  In `get_url_resilient`, a 404 response
makes `raise_for_status` raise, which the direct stage treats like every
other failure: all 5 attempts are consumed (and control then falls through
to the DNS-over-HTTPS stage).  In `fetch_sbsdr_day`, an HTTP 500 is mapped
to an empty frame by the single attempt, with no retry before giving up. -/
theorem claim_C4_counterexample :
    directStage (fun _ => AttemptOutcome.ok 404) 0 5 = (5, false) ∧
    attemptFails (AttemptOutcome.ok 404) = true ∧
    fetch_sbsdr_day (HttpOutcome.response 500 (CsvBody.table [()]) : HttpOutcome Unit) =
      Except.ok [] := by
  refine ⟨?_, ?_, ?_⟩ <;> rfl

/-- Every attempt of the direct stage failing consumes the whole attempt
budget: `directStage` performs exactly `fuel` GET calls and reports
failure. -/
theorem directStage_all_fail (oracle : Nat → AttemptOutcome) :
    ∀ (fuel start : Nat),
      (∀ i, start ≤ i → i < start + fuel → attemptFails (oracle i) = true) →
      directStage oracle start fuel = (fuel, false) := by
  intro fuel
  induction fuel with
  | zero => intro start _; rfl
  | succ n ih =>
      intro start h
      have h0 : attemptFails (oracle start) = true := h start le_rfl (by omega)
      simp only [directStage, h0, if_true]
      rw [ih (start + 1) (fun i h1 h2 => h i (by omega) (by omega))]

/-- Claim C4, amended: `get_url_resilient` applies a uniform retry policy
to every failing status, 404 included: if all 5 direct attempts fail
(any status ≥ 400, or a transport error) it performs all 5, then falls
through to the fallback stages; it returns after the first successful
attempt.  `fetch_sbsdr_day` performs a single attempt and maps every
non-200 status — 404 and 500 alike — to an empty frame with no retry. -/
theorem claim_C4_retry_ladder :
    (∀ oracle : Nat → AttemptOutcome,
        (∀ i, i < 5 → attemptFails (oracle i) = true) →
        directStage oracle 0 5 = (5, false)) ∧
    (∀ oracle : Nat → AttemptOutcome,
        attemptFails (oracle 0) = false → directStage oracle 0 5 = (1, true)) ∧
    attemptFails (AttemptOutcome.ok 404) = attemptFails (AttemptOutcome.ok 500) ∧
    (∀ (st : Nat) (b : CsvBody Unit), st ≠ 200 →
        fetch_sbsdr_day (HttpOutcome.response st b) = Except.ok ([] : List Unit)) := by
  refine ⟨?_, ?_, rfl, ?_⟩
  · intro oracle h
    exact directStage_all_fail oracle 5 0 (fun i _ h2 => h i (by omega))
  · intro oracle h
    simp only [directStage, h]
    rfl
  · intro st b h
    simp [fetch_sbsdr_day, h]

/-- Claim C4, witness for the amended theorem at concrete inputs: five
consecutive connection errors exhaust the direct stage, and an HTTP 429
yields the empty frame from the single day-fetch attempt. -/
theorem claim_C4_witness :
    directStage (fun _ => AttemptOutcome.connErr) 0 5 = (5, false) ∧
    fetch_sbsdr_day (HttpOutcome.response 429 CsvBody.blank : HttpOutcome Unit) =
      Except.ok [] :=
  ⟨claim_C4_retry_ladder.1 (fun _ => AttemptOutcome.connErr) (fun i _ => rfl),
   claim_C4_retry_ladder.2.2.2 429 CsvBody.blank (by norm_num)⟩

/-- Claim C6, counterexample: a day in the range whose filtering yields
zero matching quotes produces *no* output row at all — `build_series` only
appends a row inside `if not ser.empty:` — rather than a row with an
absent value and `record_count = 0` as the claim requires. -/
theorem claim_C6_counterexample :
    aggregateDay Agg.weighted_mean [] = none ∧
    ∀ row : OutRow, aggregateDay Agg.weighted_mean [] ≠ some row := by
  exact ⟨rfl, fun row h => Option.noConfusion h⟩

/-- Claim C6, amended: a day with zero matching quotes contributes no row
to the output series (the day is silently omitted), for every aggregation
method; no row with a numeric default is emitted either. -/
theorem claim_C6_empty_day_appends_no_row :
    ∀ agg : Agg, aggregateDay agg [] = none := fun _ => rfl

/-- Claim C7, counterexample: the acceptance condition is not the stated
"if and only if".  With effective = maturity = 2020-01-01, requested tenor
0.5 and tolerance 1, the claimed formula `|days/365.25 − tenor| ≤ tol`
holds (`|0 − 0.5| ≤ 1`), yet `tenor_close_enough` rejects the record
because of its extra `days <= 0` guard. -/
theorem claim_C7_counterexample :
    tenor_close_enough (1/2) (some ⟨2020, 1, 1⟩) (some ⟨2020, 1, 1⟩) 1 = false ∧
    |((dateDiffDays ⟨2020, 1, 1⟩ ⟨2020, 1, 1⟩ : ℚ)) / (365.25 : ℚ) - 1/2| ≤ 1 := by
  constructor
  · simp only [tenor_close_enough]
    norm_num [dateDiffDays, daysFromCivil, Int.fdiv]
  · norm_num [dateDiffDays, daysFromCivil, Int.fdiv, abs_le]

/-- Claim C7, amended: with both dates present the tenor predicate accepts
a record iff maturity is strictly after effective (`days > 0`) *and*
`|days/365.25 − tenorYears| ≤ tolYears`; with either date missing the
record is kept.  The two concrete examples of the claim hold:
effective 2020-01-01, tenor 5, tolerance 1: maturity 2025-01-02 is
accepted, maturity 2023-01-01 is rejected. -/
theorem claim_C7_tenor_predicate :
    (∀ (req tol : ℚ) (e m : PyDate),
        tenor_close_enough req (some e) (some m) tol = true ↔
          0 < dateDiffDays m e ∧
            |(dateDiffDays m e : ℚ) / (365.25 : ℚ) - req| ≤ tol) ∧
    (∀ (req tol : ℚ) (m : Option PyDate), tenor_close_enough req none m tol = true) ∧
    (∀ (req tol : ℚ) (e : Option PyDate), tenor_close_enough req e none tol = true) ∧
    tenor_close_enough 5 (some ⟨2020, 1, 1⟩) (some ⟨2025, 1, 2⟩) 1 = true ∧
    tenor_close_enough 5 (some ⟨2020, 1, 1⟩) (some ⟨2023, 1, 1⟩) 1 = false := by
  refine ⟨?_, ?_, ?_, ?_, ?_⟩
  · intro req tol e m
    simp only [tenor_close_enough]
    split
    · rename_i h
      simp only [Bool.false_eq_true, false_iff, not_and]
      intro h1
      omega
    · rename_i h
      simp only [decide_eq_true_eq]
      constructor
      · intro hp
        exact ⟨by omega, hp⟩
      · rintro ⟨-, hp⟩
        exact hp
  · intro req tol m
    cases m <;> rfl
  · intro req tol e
    cases e <;> rfl
  · simp only [tenor_close_enough]
    norm_num [dateDiffDays, daysFromCivil, Int.fdiv, abs_le]
  · simp only [tenor_close_enough]
    norm_num [dateDiffDays, daysFromCivil, Int.fdiv, abs_le]

/-- Claim C1 (code bug): for any valid range `start ≤ end` — and whatever
the fetch layer returns — `build_series` raises on the very first day:
`if txt:` applies Python truthiness to the pandas DataFrame returned by
`fetch_sbsdr_day`, which raises `ValueError` unconditionally.  No series
is ever returned, contradicting the claim (and the function's own
docstring, which promises a DataFrame with one row per aggregated day). -/
theorem claim_C1_build_series_always_raises :
    ∀ (α : Type) (fetch : Int → List α) (s e : Int) (agg : Agg),
      s ≤ e → ∃ msg, build_series α fetch s e agg = Except.error msg := by
  intro α fetch s e agg h
  refine ⟨"The truth value of a DataFrame is ambiguous", ?_⟩
  unfold build_series
  rw [if_neg (by omega : ¬ e < s)]
  rfl

/-- Claim C1, witness: a concrete two-day run over any fetch result aborts
with the DataFrame-truthiness `ValueError`. -/
theorem claim_C1_witness :
    (0 : Int) ≤ 1 ∧
    ∃ msg, build_series Unit (fun _ => []) 0 1 Agg.weighted_mean = Except.error msg :=
  ⟨by norm_num,
   claim_C1_build_series_always_raises Unit (fun _ => []) 0 1 Agg.weighted_mean (by norm_num)⟩

/-- Claim C5, counterexample: a non-empty day whose quotes all carry zero
weight (notional) does not fall back to the unweighted mean.  With one
quote of spread 10 bps and notional 0, the `weighted_mean` guard
`notional > 0` fails and the day's value is `None`, not the unweighted
mean 10. -/
theorem claim_C5_counterexample :
    aggregateDay Agg.weighted_mean [{ date := 0, notional := 0, spread_bps := some 10 }] =
      some { date := 0, entity := "United States of America", tenor_years := 5,
             currency := "USD", trades := 1, notional := 0, price := none } ∧
    (none : Option ℚ) ≠ some 10 := by
  constructor
  · simp [aggregateDay]
  · simp

/-- Claim C5, amended: when every weight is zero, `weighted_mean`
aggregation yields an *absent* value (`None`), not the unweighted mean;
the guarded branch (`Σnotional > 0`, denominator `max(Σ, 1e-12)`) is never
entered, so no division by zero occurs, and the stage returns a row
normally (no exception). -/
theorem claim_C5_zero_weights_absent :
    ∀ ser : List FilteredRow, ser ≠ [] → (∀ r ∈ ser, r.notional = 0) →
      ∃ row, aggregateDay Agg.weighted_mean ser = some row ∧
        row.price = none ∧ row.trades = ser.length := by
  intro ser hne hz
  match ser, hne with
  | first :: rest, _ =>
      have hsum : ((first :: rest).map (fun r => r.notional)).sum = 0 := by
        apply List.sum_eq_zero
        intro x hx
        rcases List.mem_map.mp hx with ⟨r, hr, rfl⟩
        exact hz r hr
      refine ⟨_, rfl, ?_, rfl⟩
      simp only [aggregateDay, hsum]
      norm_num

/-- Claim C5, witness for the amended theorem: two zero-notional quotes on
one day yield a row whose value is absent and whose trade count is 2. -/
theorem claim_C5_witness :
    ∃ row, aggregateDay Agg.weighted_mean
        [{ date := 3, notional := 0, spread_bps := some 7 },
         { date := 3, notional := 0, spread_bps := none }] = some row ∧
      row.price = none ∧
      row.trades = ([{ date := 3, notional := 0, spread_bps := some 7 },
                     { date := 3, notional := 0, spread_bps := none }] :
                      List FilteredRow).length :=
  claim_C5_zero_weights_absent _ (by simp)
    (by
      intro r hr
      simp only [List.mem_cons, List.not_mem_nil, or_false] at hr
      rcases hr with h | h <;> simp [h])

/-- Claim C8, counterexample: `filter_cds_rows` never drops a surviving
record.  A record with no numeric spread, price, or coupon is retained in
the returned frame with `quote_value_bps = None` (first conjunct)
instead of being dropped.  Moreover the preference order is not "spread
when numeric, otherwise price": a record whose spread cell failed to parse
inside a float column (pandas `NaN`) still satisfies `is not None`, so the
`NaN` spread is chosen over an available numeric price (second conjunct,
first output row). -/
theorem claim_C8_counterexample :
    quoteStage [{ spread := none, price := none, coupon := none, notional := some 5 }] =
      [{ notional := PCell.pnum 5, spread_bps := PCell.pnone, price := PCell.pnone,
         coupon_bps := PCell.pnone, quote_value_bps := PCell.pnone, quote_type := none }] ∧
    (quoteStage [{ spread := none, price := some 7, coupon := none, notional := some 1 },
                 { spread := some 4, price := none, coupon := none, notional := some 1 }]).map
        (fun q => (q.quote_value_bps, q.quote_type)) =
      [(PCell.pnan, some "spread_bps"), (PCell.pnum 4, some "spread_bps")] := by
  constructor <;> rfl

/-- Claim C8, amended: per surviving record the quote is chosen by the
preference order spread, then price, then coupon, where a field counts as
available when its materialized cell `is not None` — under pandas dtype
coercion a failed parse in a column with at least one numeric value
becomes `NaN` and so still counts as available — and a record for which
no field is available is *retained* in the returned frame with a `None`
quote, never dropped (the output has exactly one row per surviving
record). -/
theorem claim_C8_quote_selection :
    (∀ rows : List SurvRow, (quoteStage rows).length = rows.length) ∧
    (∀ rows : List SurvRow, ∀ q ∈ quoteStage rows,
        (q.quote_value_bps, q.quote_type) =
          choose_quote q.spread_bps q.price q.coupon_bps) ∧
    (∀ s p c : PCell, s ≠ PCell.pnone →
        choose_quote s p c = (s, some "spread_bps")) ∧
    (∀ s p c : PCell, s = PCell.pnone → p ≠ PCell.pnone →
        choose_quote s p c = (p, some "price")) ∧
    (∀ s p c : PCell, s = PCell.pnone → p = PCell.pnone → c ≠ PCell.pnone →
        choose_quote s p c = (c, some "running_coupon_bps")) ∧
    choose_quote PCell.pnone PCell.pnone PCell.pnone = (PCell.pnone, none) := by
  refine ⟨?_, ?_, ?_, ?_, ?_, rfl⟩
  · intro rows
    simp [quoteStage]
  · intro rows q hq
    simp only [quoteStage, List.mem_map] at hq
    obtain ⟨r, _, rfl⟩ := hq
    rfl
  · intro s p c hs
    simp [choose_quote, hs]
  · intro s p c hs hp
    simp [choose_quote, hs, hp]
  · intro s p c hs hp hc
    simp [choose_quote, hs, hp, hc]

/-- Claim C8, witness for the amended theorem at concrete inputs: a
single-record frame keeps its one row, and a numeric spread is preferred
over everything else. -/
theorem claim_C8_witness :
    (quoteStage [{ spread := some 9, price := none, coupon := none, notional := none }]).length = 1 ∧
    choose_quote (PCell.pnum 9) PCell.pnan PCell.pnone = (PCell.pnum 9, some "spread_bps") :=
  ⟨claim_C8_quote_selection.1 [{ spread := some 9, price := none, coupon := none, notional := none }],
   claim_C8_quote_selection.2.2.1 (PCell.pnum 9) PCell.pnan PCell.pnone (by simp)⟩

/-- Claim C9, counterexample: the coupon conversion is not restricted to
`[0, 1)`.  The parsed coupon value `-0.5` lies outside `[0, 1)`, yet the
code's guard `to_num(x) and to_num(x) < 1` is satisfied (`-0.5` is truthy
and `< 1`), so the value is scaled to `-5000` instead of being left
unscaled. -/
theorem claim_C9_counterexample :
    couponCellConv (some (-(1 / 2) : ℚ)) = some (-5000) ∧
    ¬ (0 ≤ (-(1 / 2) : ℚ)) := by
  constructor
  · simp only [couponCellConv]
    norm_num
  · norm_num

/-- Claim C9, amended: a parsed coupon value is scaled by 10000 exactly
when it is nonzero and `< 1` — so every value in `[0, 1)` converts to
`v × 10000` (for `v = 0` the untouched value coincides with `0 × 10000`),
values `≥ 1` are left unscaled, but *negative* values are scaled too; and
`normalize_price_to_bps` drops (sets to NaN) every percent-typed price
value while leaving all others unscaled. -/
theorem claim_C9_coupon_and_percent :
    (∀ q : ℚ, 0 ≤ q → q < 1 → couponCellConv (some q) = some (q * 10000)) ∧
    (∀ q : ℚ, 1 ≤ q → couponCellConv (some q) = some q) ∧
    (∀ q : ℚ, q < 0 → couponCellConv (some q) = some (q * 10000)) ∧
    couponCellConv none = none ∧
    (∀ (p : Option ℚ) (u : PriceUnit), u.is_pct = true →
        normalize_price_to_bps p (some u) = none) ∧
    (∀ (p : Option ℚ) (u : PriceUnit), u.is_pct = false →
        normalize_price_to_bps p (some u) = p) ∧
    (∀ p : Option ℚ, normalize_price_to_bps p none = p) := by
  refine ⟨?_, ?_, ?_, rfl, ?_, ?_, fun p => rfl⟩
  · intro q h0 h1
    by_cases hq : q = 0
    · subst hq
      simp [couponCellConv]
    · simp [couponCellConv, hq, h1]
  · intro q h1
    have : ¬ q < 1 := by linarith
    simp [couponCellConv, this]
  · intro q hneg
    have hq : q ≠ 0 := by linarith
    have h1 : q < 1 := by linarith
    simp [couponCellConv, hq, h1]
  · intro p u h
    simp [normalize_price_to_bps, h]
  · intro p u h
    simp [normalize_price_to_bps, h]

/-- Claim C9, witness for the amended theorem at concrete inputs: the
decimal coupon fraction `0.05` converts to `500` bps, and a percent-typed
price is dropped. -/
theorem claim_C9_witness :
    couponCellConv (some ((1 : ℚ) / 20)) = some ((1 : ℚ) / 20 * 10000) ∧
    normalize_price_to_bps (some 42) (some { is_bps := false, is_pct := true }) = none :=
  ⟨claim_C9_coupon_and_percent.1 ((1 : ℚ) / 20) (by norm_num) (by norm_num),
   claim_C9_coupon_and_percent.2.2.2.2.1 (some 42) { is_bps := false, is_pct := true } rfl⟩

/-- Claim C10 (confirmed): in the `weighted_mean` aggregation of
`build_series`, a filtered row with missing spread but positive notional is
not excluded — the drop step of `_filter_usa_usd_5y` keeps any row with a
non-NaN notional (first conjunct), its spread enters the numerator as 0 via
`fillna(0.0)` while its notional enters the denominator — so a day mixing
such rows with rows of positive known spreads reports a value strictly
smaller than the notional-weighted mean of the known spreads alone. -/
theorem claim_C10_missing_spread_dilution
    (known missing : List FilteredRow)
    (hkne : known ≠ [])
    (hks : ∀ r ∈ known, ∃ s, r.spread_bps = some s ∧ 0 < s)
    (hkn : ∀ r ∈ known, 0 ≤ r.notional)
    (hknsum : 0 < (known.map (fun r => r.notional)).sum)
    (hms : ∀ r ∈ missing, r.spread_bps = none ∧ 0 < r.notional)
    (hmne : missing ≠ []) :
    (∀ (d : Int) (n : ℚ),
        filterNumericTail true true
            [{ date := some d, notional := some n, spread := none }] =
          [{ date := d, notional := n, spread_bps := none }]) ∧
    ∃ row, aggregateDay Agg.weighted_mean (known ++ missing) = some row ∧
      ∃ v, row.price = some v ∧
        v < (known.map (fun r => (r.spread_bps.getD 0) * r.notional)).sum /
              (known.map (fun r => r.notional)).sum := by
  constructor
  · intro d n
    rfl
  · match known, hkne with
    | k0 :: ktail, _ =>
      set kn : List FilteredRow := k0 :: ktail with hkdef
      set N : ℚ := (kn.map (fun r => (r.spread_bps.getD 0) * r.notional)).sum with hN
      set D : ℚ := (kn.map (fun r => r.notional)).sum with hD
      set M : ℚ := (missing.map (fun r => r.notional)).sum with hM
      have hDpos : 0 < D := hknsum
      have hMpos : 0 < M := by
        refine List.sum_pos _ ?_ ?_
        · intro x hx
          rcases List.mem_map.mp hx with ⟨r, hr, rfl⟩
          exact (hms r hr).2
        · intro hnil
          exact hmne (List.map_eq_nil_iff.mp hnil)
      have hNpos : 0 < N := by
        have hex : ∃ r ∈ kn, 0 < r.notional := by
          by_contra hcon
          push_neg at hcon
          have hzero : D = 0 := by
            apply List.sum_eq_zero
            intro x hx
            rcases List.mem_map.mp hx with ⟨r, hr, rfl⟩
            exact le_antisymm (hcon r hr) (hkn r hr)
          linarith
        obtain ⟨r0, hr0, hr0n⟩ := hex
        obtain ⟨s0, hs0, hs0pos⟩ := hks r0 hr0
        have hterm : (fun r : FilteredRow => (r.spread_bps.getD 0) * r.notional) r0 =
            s0 * r0.notional := by
          simp [hs0]
        have hmem : (fun r : FilteredRow => (r.spread_bps.getD 0) * r.notional) r0 ∈
            kn.map (fun r => (r.spread_bps.getD 0) * r.notional) :=
          List.mem_map_of_mem _ hr0
        have hle : (fun r : FilteredRow => (r.spread_bps.getD 0) * r.notional) r0 ≤ N := by
          apply List.single_le_sum _ _ hmem
          intro x hx
          rcases List.mem_map.mp hx with ⟨r, hr, rfl⟩
          obtain ⟨s, hs, hspos⟩ := hks r hr
          simp only [hs, Option.getD_some]
          exact mul_nonneg (le_of_lt hspos) (hkn r hr)
        calc (0 : ℚ) < s0 * r0.notional := mul_pos hs0pos hr0n
          _ = _ := hterm.symm
          _ ≤ N := hle
      have hnum : ((kn ++ missing).map
          (fun r => (r.spread_bps.getD 0) * r.notional)).sum = N := by
        rw [List.map_append, List.sum_append]
        have : (missing.map (fun r => (r.spread_bps.getD 0) * r.notional)).sum = 0 := by
          apply List.sum_eq_zero
          intro x hx
          rcases List.mem_map.mp hx with ⟨r, hr, rfl⟩
          simp [(hms r hr).1]
        rw [this, add_zero]
      have hden : ((kn ++ missing).map (fun r => r.notional)).sum = D + M := by
        rw [List.map_append, List.sum_append]
      have hany : ((kn ++ missing).any (fun r => r.spread_bps.isSome)) = true := by
        apply List.any_eq_true.mpr
        obtain ⟨s, hs, _⟩ := hks k0 (List.mem_cons_self k0 ktail)
        exact ⟨k0, List.mem_append_left _ (List.mem_cons_self k0 ktail), by simp [hs]⟩
      have hdenpos : 0 < D + M := by linarith
      refine ⟨_, rfl, ?_⟩
      simp only [aggregateDay, hnum, hden, hany, hdenpos, true_and, if_pos]
      refine ⟨_, rfl, ?_⟩
      have hmax : D < max (D + M) ((1 : ℚ) / 1000000000000) :=
        lt_of_lt_of_le (by linarith) (le_max_left _ _)
      exact div_lt_div_of_pos_left hNpos hDpos hmax

/-- Claim C10, witness: one known quote (spread 10 bps, notional 2)
together with one missing-spread row of notional 2 yields a reported value
(5 bps) strictly below the weighted mean of the known quotes alone
(10 bps). -/
theorem claim_C10_witness :
    (∀ (d : Int) (n : ℚ),
        filterNumericTail true true
            [{ date := some d, notional := some n, spread := none }] =
          [{ date := d, notional := n, spread_bps := none }]) ∧
    ∃ row, aggregateDay Agg.weighted_mean
        ([{ date := 0, notional := 2, spread_bps := some 10 }] ++
         [{ date := 0, notional := 2, spread_bps := none }]) = some row ∧
      ∃ v, row.price = some v ∧
        v < (([{ date := 0, notional := 2, spread_bps := some 10 }] :
                List FilteredRow).map
              (fun r => (r.spread_bps.getD 0) * r.notional)).sum /
            (([{ date := 0, notional := 2, spread_bps := some 10 }] :
                List FilteredRow).map (fun r => r.notional)).sum :=
  claim_C10_missing_spread_dilution
    [{ date := 0, notional := 2, spread_bps := some 10 }]
    [{ date := 0, notional := 2, spread_bps := none }]
    (by simp)
    (by
      intro r hr
      simp only [List.mem_singleton] at hr
      exact ⟨10, by simp [hr], by norm_num⟩)
    (by
      intro r hr
      simp only [List.mem_singleton] at hr
      simp [hr])
    (by norm_num)
    (by
      intro r hr
      simp only [List.mem_singleton] at hr
      simp [hr])
    (by simp)

end CDSData
